import Mathlib

/-!
Verification of the ShelfScan AI core logic: a shallow embedding of the
domain model (`Product`, `Shelf`, `Alert`), the reducer-based state store
(`appReducer` from `lib/context/AppContext.tsx`), the inventory simulator
(`mockData.ts`), the alert engine (`alertUtils.ts`), and the update
reconciler (`handleUpdate` from the real-time updates hook).

Conventions of the embedding:
* TypeScript `number` fields holding integers (counts, thresholds) are `Int`.
* ISO-8601 timestamp strings are represented by their epoch-millisecond
  value (`Int`), which is what every computation in the source performs on
  them (`new Date(ts).getTime()`).
* `Math.random()` draws are passed in explicitly (as `ℚ` values in `[0,1)`
  or as pre-drawn index lists), one per call site, so that properties can be
  stated for every outcome of the random source.
* JavaScript `Array.prototype.sort` with a numeric comparator is a stable
  sort by that comparator (per the ECMAScript specification); it is embedded
  as `List.insertionSort` by the corresponding `≤` relation, which is stable.
-/

namespace ShelfScan

/-- Shelf status enum from `lib/types.ts`: `'ok' | 'low' | 'empty'`. -/
inductive Status where
  | ok
  | low
  | empty
deriving DecidableEq

/-- Alert type enum from `lib/types.ts`: `'low' | 'empty'`. -/
inductive AlertType where
  | low
  | empty
deriving DecidableEq

/-- `Product` interface from `lib/types.ts`. -/
structure Product where
  product : String
  count : Int
  threshold : Int
deriving DecidableEq

/-- `Shelf` interface from `lib/types.ts`. -/
structure Shelf where
  id : String
  aisle : String
  items : List Product
  status : Status
  lastScanned : Int
  imageUrl : Option String := none
deriving DecidableEq

/-- `Alert` interface from `lib/types.ts`. -/
structure Alert where
  id : String
  shelf : String
  product : String
  type : AlertType
  timestamp : Int
  acknowledged : Bool
deriving DecidableEq

/-- `ScanUpdate` interface from `lib/types.ts`. -/
structure ScanUpdate where
  shelf : String
  items : List Product
  timestamp : Int
deriving DecidableEq

/-- Loading flags of `AppState` from `lib/types.ts`. -/
structure LoadingFlags where
  shelves : Bool
  alerts : Bool
deriving DecidableEq

/-- `filterOptions` of `AppState` from `lib/types.ts`. -/
structure FilterOptionsState where
  aisle : Option String
  status : Option Status
deriving DecidableEq

/-- `AppState` from `lib/types.ts`. -/
structure AppState where
  shelves : List Shelf
  alerts : List Alert
  loading : LoadingFlags
  error : Option String
  selectedShelf : Option String
  filterOptions : FilterOptionsState
deriving DecidableEq

/-- `determineShelfStatus` from `lib/mockData.ts` (lines 90-97). -/
def determineShelfStatus (products : List Product) : Status :=
  let emptyProducts := products.filter (fun p => p.count == 0)
  let lowProducts := products.filter (fun p => decide (0 < p.count) && decide (p.count < p.threshold))
  if 0 < emptyProducts.length then Status.empty
  else if 0 < lowProducts.length then Status.low
  else Status.ok

/-- The status derivation as worded by the spec (section 3 / 4.1), for the
refinement comparison of claim C2: `empty` if any item has `count == 0`;
else `low` if any item has `0 < count < threshold`; else `ok`. -/
def deriveStatusSpec (items : List Product) : Status :=
  if ∃ p ∈ items, p.count = 0 then Status.empty
  else if ∃ p ∈ items, 0 < p.count ∧ p.count < p.threshold then Status.low
  else Status.ok

/-- The `AppAction` sum type from `lib/context/AppContext.tsx` (the
string-keyed `SET_FILTER` action is split into its two possible keys). -/
inductive AppAction where
  | INIT (payload : AppState)
  | FETCH_SHELVES_START
  | FETCH_SHELVES_SUCCESS (payload : List Shelf)
  | FETCH_SHELVES_ERROR (payload : String)
  | UPDATE_SHELF (payload : Shelf)
  | SET_SHELVES (payload : List Shelf)
  | FETCH_ALERTS_START
  | FETCH_ALERTS_SUCCESS (payload : List Alert)
  | FETCH_ALERTS_ERROR (payload : String)
  | ADD_ALERT (payload : Alert)
  | ACKNOWLEDGE_ALERT (payload : String)
  | REMOVE_ALERT (payload : String)
  | SET_ALERTS (payload : List Alert)
  | SELECT_SHELF (payload : String)
  | CLEAR_SELECTED_SHELF
  | SET_FILTER_AISLE (value : Option String)
  | SET_FILTER_STATUS (value : Option Status)
  | CLEAR_FILTERS
  | MARK_RESTOCKED (shelfId : String) (productName : String)
  | REQUEST_RESCAN (payload : String)

/-- `appReducer` from `lib/context/AppContext.tsx` (lines 72-233).

The embedding works on the post-`INIT` non-null state, so the
`state!.shelves ?? []` / `state!.alerts ?? []` re-assertions of the source
are identities here.  `now` supplies the `new Date().toISOString()` value
drawn by `REQUEST_RESCAN`. -/
def appReducer (now : Int) (state : AppState) (action : AppAction) : AppState :=
  match action with
  | AppAction.INIT payload => payload
  | AppAction.FETCH_SHELVES_START =>
      { state with loading := { state.loading with shelves := true }, error := none }
  | AppAction.FETCH_SHELVES_SUCCESS payload =>
      { state with
        shelves := payload,
        loading := { state.loading with shelves := false },
        error := none }
  | AppAction.FETCH_SHELVES_ERROR payload =>
      { state with loading := { state.loading with shelves := false }, error := some payload }
  | AppAction.UPDATE_SHELF payload =>
      { state with shelves := state.shelves.map (fun shelf =>
          if shelf.id == payload.id then payload else shelf) }
  | AppAction.SET_SHELVES payload => { state with shelves := payload }
  | AppAction.FETCH_ALERTS_START =>
      { state with loading := { state.loading with alerts := true }, error := none }
  | AppAction.FETCH_ALERTS_SUCCESS payload =>
      { state with
        alerts := payload,
        loading := { state.loading with alerts := false },
        error := none }
  | AppAction.FETCH_ALERTS_ERROR payload =>
      { state with loading := { state.loading with alerts := false }, error := some payload }
  | AppAction.ADD_ALERT payload => { state with alerts := payload :: state.alerts }
  | AppAction.ACKNOWLEDGE_ALERT payload =>
      { state with alerts := state.alerts.map (fun alert =>
          if alert.id == payload then { alert with acknowledged := true } else alert) }
  | AppAction.REMOVE_ALERT payload =>
      { state with alerts := state.alerts.filter (fun alert => !(alert.id == payload)) }
  | AppAction.SET_ALERTS payload => { state with alerts := payload }
  | AppAction.SELECT_SHELF payload => { state with selectedShelf := some payload }
  | AppAction.CLEAR_SELECTED_SHELF => { state with selectedShelf := none }
  | AppAction.SET_FILTER_AISLE value =>
      { state with filterOptions := { state.filterOptions with aisle := value } }
  | AppAction.SET_FILTER_STATUS value =>
      { state with filterOptions := { state.filterOptions with status := value } }
  | AppAction.CLEAR_FILTERS =>
      { state with filterOptions := { aisle := none, status := none } }
  | AppAction.MARK_RESTOCKED shelfId productName =>
      { state with
        shelves := state.shelves.map (fun shelf =>
          if shelf.id == shelfId then
            { shelf with items := shelf.items.map (fun product =>
                if product.product == productName then
                  { product with count := product.count + 1 }
                else product) }
          else shelf),
        alerts := state.alerts.filter (fun alert =>
          !(alert.shelf == shelfId && alert.product == productName)) }
  | AppAction.REQUEST_RESCAN payload =>
      { state with shelves := state.shelves.map (fun shelf =>
          if shelf.id == payload then { shelf with lastScanned := now } else shelf) }

/-- `applyScanUpdate` from `lib/mockData.ts` (lines 303-312). -/
def applyScanUpdate (shelf : Shelf) (update : ScanUpdate) : Shelf :=
  { shelf with
    items := update.items,
    lastScanned := update.timestamp,
    status := determineShelfStatus update.items }

/-- The per-product body of `simulateShelfScan` from `lib/mockData.ts`
(lines 271-291).  `changeType` is the `Math.random()` draw deciding the
transition; `r` is the draw used inside the taken branch. -/
def simulateProductScan (changeType r : ℚ) (product : Product) : Product :=
  let newCount := product.count
  if changeType < 1/10 ∧ 0 < newCount then
    { product with count := max 0 (newCount - (1 + ⌊r * 3⌋)) }
  else if changeType < 3/20 ∧ newCount = 0 then
    { product with count := product.threshold + ⌊r * 10⌋ }
  else if changeType < 9/50 ∧ newCount < product.threshold then
    { product with count := min (product.threshold + 5) (newCount + ⌊r * 8⌋) }
  else product

/-- The `shelf.items.map` traversal of `simulateShelfScan`, with the random
draws of the i-th product supplied by `rnd i`. -/
def simulateShelfScanItems (rnd : Nat → ℚ × ℚ) : Nat → List Product → List Product
  | _, [] => []
  | i, p :: rest =>
      simulateProductScan (rnd i).1 (rnd i).2 p :: simulateShelfScanItems rnd (i + 1) rest

/-- `simulateShelfScan` from `lib/mockData.ts` (lines 270-298).  `now` is
the `new Date().toISOString()` value of the produced update. -/
def simulateShelfScan (rnd : Nat → ℚ × ℚ) (now : Int) (shelf : Shelf) : ScanUpdate :=
  { shelf := shelf.id,
    items := simulateShelfScanItems rnd 0 shelf.items,
    timestamp := now }

/-- The `restockedCount` computation of `simulateRestockProduct`
(`lib/mockData.ts` lines 320-323): the explicit `newCount` if given, else
`threshold + Math.floor(Math.random() * 10) + 5` with `r` the random draw. -/
def restockedCount (r : ℚ) (newCount : Option Int) (p : Product) : Int :=
  match newCount with
  | some n => n
  | none => p.threshold + ⌊r * 10⌋ + 5

/-- The `shelf.items.map` traversal of `simulateRestockProduct`. -/
def restockItems (rnd : Nat → ℚ) (productName : String) (newCount : Option Int) :
    Nat → List Product → List Product
  | _, [] => []
  | i, p :: rest =>
      (if p.product == productName then
        { p with count := max 0 (restockedCount (rnd i) newCount p) }
      else p) :: restockItems rnd productName newCount (i + 1) rest

/-- `simulateRestockProduct` from `lib/mockData.ts` (lines 317-339). -/
def simulateRestockProduct (rnd : Nat → ℚ) (now : Int) (shelf : Shelf)
    (productName : String) (newCount : Option Int) : Shelf :=
  let updatedItems := restockItems rnd productName newCount 0 shelf.items
  { shelf with
    items := updatedItems,
    status := determineShelfStatus updatedItems,
    lastScanned := now }

/-- `handleUpdate` from `lib/hooks/useRealTimeUpdates.ts` (lines 215-235),
the Update Reconciler: look up the shelf named by the update, apply
`applyScanUpdate`, and dispatch `UPDATE_SHELF`; an unknown shelf id leaves
the state untouched.  (The remaining statements of the source only log.) -/
def handleUpdate (now : Int) (state : AppState) (update : ScanUpdate) : AppState :=
  match state.shelves.find? (fun s => s.id == update.shelf) with
  | none => state
  | some shelfToUpdate =>
      appReducer now state (AppAction.UPDATE_SHELF (applyScanUpdate shelfToUpdate update))

/-- Severity enum of `lib/alertUtils.ts`. -/
inductive Severity where
  | critical
  | high
  | medium
  | low
deriving DecidableEq

/-- `getAlertPriority` from `lib/alertUtils.ts` (lines 17-31).  `now` is the
`Date.now()` of the call; `ageInMinutes * 0.1` is exact rational
arithmetic here. -/
def getAlertPriority (now : Int) (alert : Alert) : ℚ :=
  let score : ℚ := if alert.type == AlertType.empty then 0 else 100
  let ageInMinutes : ℚ := ((now - alert.timestamp : Int) : ℚ) / (1000 * 60)
  let score := score + ageInMinutes * (1/10)
  if alert.acknowledged then score + 10000 else score

/-- `getAlertSeverity` from `lib/alertUtils.ts` (lines 36-49). -/
def getAlertSeverity (now : Int) (alert : Alert) : Severity :=
  if alert.type == AlertType.empty then Severity.critical
  else if alert.type == AlertType.low then
    let ageInHours : ℚ := ((now - alert.timestamp : Int) : ℚ) / (1000 * 60 * 60)
    if 24 < ageInHours then Severity.high
    else if 4 < ageInHours then Severity.medium
    else Severity.low
  else Severity.low

/-- `isUrgentAlert` from `lib/alertUtils.ts` (lines 54-58). -/
def isUrgentAlert (now : Int) (alert : Alert) : Bool :=
  if alert.acknowledged then false
  else alert.type == AlertType.empty || getAlertSeverity now alert == Severity.high

/-- `sortAlertsByPriority` from `lib/alertUtils.ts` (lines 67-69): a stable
ascending sort by `getAlertPriority`. -/
def sortAlertsByPriority (now : Int) (alerts : List Alert) : List Alert :=
  alerts.insertionSort (fun a b => getAlertPriority now a ≤ getAlertPriority now b)

/-- `sortAlertsByTime` from `lib/alertUtils.ts` (lines 74-78): newest
first. -/
def sortAlertsByTime (alerts : List Alert) : List Alert :=
  alerts.insertionSort (fun a b => b.timestamp ≤ a.timestamp)

/-- `sortAlertsByLocation` from `lib/alertUtils.ts` (lines 83-85):
`localeCompare` on shelf ids, embedded as the lexicographic string order. -/
def sortAlertsByLocation (alerts : List Alert) : List Alert :=
  alerts.insertionSort (fun a b => a.shelf ≤ b.shelf)

/-- `sortAlertsByProduct` from `lib/alertUtils.ts` (lines 90-92). -/
def sortAlertsByProduct (alerts : List Alert) : List Alert :=
  alerts.insertionSort (fun a b => a.product ≤ b.product)

/-- The `Array<'empty' | 'low'> | 'all'` argument of `filterAlertsByType`. -/
inductive TypeArg where
  | all
  | sel (types : List AlertType)

/-- `filterAlertsByType` from `lib/alertUtils.ts` (lines 101-107). -/
def filterAlertsByType (alerts : List Alert) (types : TypeArg) : List Alert :=
  match types with
  | TypeArg.all => alerts
  | TypeArg.sel ts => alerts.filter (fun alert => ts.contains alert.type)

/-- The `'acknowledged' | 'unacknowledged' | 'all'` argument of
`filterAlertsByStatus`. -/
inductive StatusArg where
  | all
  | acknowledged
  | unacknowledged
deriving DecidableEq

/-- `filterAlertsByStatus` from `lib/alertUtils.ts` (lines 112-119). -/
def filterAlertsByStatus (alerts : List Alert) (status : StatusArg) : List Alert :=
  match status with
  | StatusArg.all => alerts
  | StatusArg.acknowledged => alerts.filter (fun alert => alert.acknowledged)
  | StatusArg.unacknowledged => alerts.filter (fun alert => !alert.acknowledged)

/-- The `'today' | 'week' | 'month' | 'all'` argument of
`filterAlertsByDateRange`. -/
inductive DateRangeArg where
  | all
  | today
  | week
  | month
deriving DecidableEq

/-- The clock of an alert-engine call: `now` is `Date.now()`, and
`startOfToday` is `new Date(now.getFullYear(), now.getMonth(),
now.getDate()).getTime()`, the local-calendar midnight computed by the
`today` date-range cutoff. -/
structure Clock where
  now : Int
  startOfToday : Int

/-- `filterAlertsByDateRange` from `lib/alertUtils.ts` (lines 124-148). -/
def filterAlertsByDateRange (clk : Clock) (alerts : List Alert) (range : DateRangeArg) : List Alert :=
  match range with
  | DateRangeArg.all => alerts
  | DateRangeArg.today =>
      alerts.filter (fun alert => decide (clk.startOfToday ≤ alert.timestamp))
  | DateRangeArg.week =>
      alerts.filter (fun alert => decide (clk.now - 7 * 24 * 60 * 60 * 1000 ≤ alert.timestamp))
  | DateRangeArg.month =>
      alerts.filter (fun alert => decide (clk.now - 30 * 24 * 60 * 60 * 1000 ≤ alert.timestamp))

/-- JavaScript `String.prototype.includes`: substring containment. -/
def strIncludes (s sub : String) : Bool :=
  decide (sub.toList <:+: s.toList)

/-- `filterAlertsBySearch` from `lib/alertUtils.ts` (lines 153-161):
case-insensitive substring match on product name or shelf id. -/
def filterAlertsBySearch (alerts : List Alert) (searchTerm : String) : List Alert :=
  if searchTerm.trim == "" then alerts
  else
    let search := searchTerm.toLower
    alerts.filter (fun alert =>
      strIncludes alert.product.toLower search || strIncludes alert.shelf.toLower search)

/-- The `Array<severity> | 'all'` argument of `filterAlertsBySeverity`. -/
inductive SeverityArg where
  | all
  | sel (severities : List Severity)

/-- `filterAlertsBySeverity` from `lib/alertUtils.ts` (lines 166-172). -/
def filterAlertsBySeverity (now : Int) (alerts : List Alert) (severities : SeverityArg) : List Alert :=
  match severities with
  | SeverityArg.all => alerts
  | SeverityArg.sel ss => alerts.filter (fun alert => ss.contains (getAlertSeverity now alert))

/-- The `type` field of `AlertFilterOptions`: `'all' | 'empty' | 'low'`. -/
inductive TypeOption where
  | all
  | empty
  | low
deriving DecidableEq

/-- The `sortBy` field of `AlertFilterOptions`. -/
inductive SortByOption where
  | priority
  | time
  | location
  | product
deriving DecidableEq

/-- `AlertFilterOptions` from `lib/alertUtils.ts` (lines 178-185); every
field is optional. -/
structure AlertFilterOptions where
  type : Option TypeOption := none
  status : Option StatusArg := none
  dateRange : Option DateRangeArg := none
  search : Option String := none
  severity : Option SeverityArg := none
  sortBy : Option SortByOption := none

/-- The `options.type` step of `processAlerts`: applied only when the field
is present and not `'all'`, passing the singleton list `[options.type]`. -/
def typeStage (o : AlertFilterOptions) (xs : List Alert) : List Alert :=
  match o.type with
  | some TypeOption.empty => filterAlertsByType xs (TypeArg.sel [AlertType.empty])
  | some TypeOption.low => filterAlertsByType xs (TypeArg.sel [AlertType.low])
  | _ => xs

/-- The `options.status` step of `processAlerts`. -/
def statusStage (o : AlertFilterOptions) (xs : List Alert) : List Alert :=
  match o.status with
  | some StatusArg.acknowledged => filterAlertsByStatus xs StatusArg.acknowledged
  | some StatusArg.unacknowledged => filterAlertsByStatus xs StatusArg.unacknowledged
  | _ => xs

/-- The `options.dateRange` step of `processAlerts`. -/
def dateStage (clk : Clock) (o : AlertFilterOptions) (xs : List Alert) : List Alert :=
  match o.dateRange with
  | some DateRangeArg.today => filterAlertsByDateRange clk xs DateRangeArg.today
  | some DateRangeArg.week => filterAlertsByDateRange clk xs DateRangeArg.week
  | some DateRangeArg.month => filterAlertsByDateRange clk xs DateRangeArg.month
  | _ => xs

/-- The `options.search` step of `processAlerts`; `if (options.search)` is
JavaScript truthiness, so an absent or empty string skips the filter. -/
def searchStage (o : AlertFilterOptions) (xs : List Alert) : List Alert :=
  match o.search with
  | some s => if s == "" then xs else filterAlertsBySearch xs s
  | none => xs

/-- The `options.severity` step of `processAlerts`. -/
def severityStage (clk : Clock) (o : AlertFilterOptions) (xs : List Alert) : List Alert :=
  match o.severity with
  | some (SeverityArg.sel ss) => filterAlertsBySeverity clk.now xs (SeverityArg.sel ss)
  | _ => xs

/-- The filter block of `processAlerts` (lines 193-212 of
`lib/alertUtils.ts`): the five filters applied in source order. -/
def applyFilters (clk : Clock) (o : AlertFilterOptions) (xs : List Alert) : List Alert :=
  severityStage clk o (searchStage o (dateStage clk o (statusStage o (typeStage o xs))))

/-- The sort switch of `processAlerts` (lines 214-229 of
`lib/alertUtils.ts`); the default and `'priority'` branches coincide. -/
def applySort (clk : Clock) (o : AlertFilterOptions) (xs : List Alert) : List Alert :=
  match o.sortBy with
  | some SortByOption.time => sortAlertsByTime xs
  | some SortByOption.location => sortAlertsByLocation xs
  | some SortByOption.product => sortAlertsByProduct xs
  | _ => sortAlertsByPriority clk.now xs

/-- `processAlerts` from `lib/alertUtils.ts` (lines 190-232). -/
def processAlerts (clk : Clock) (alerts : List Alert) (options : AlertFilterOptions) : List Alert :=
  applySort clk options (applyFilters clk options alerts)

/-- Sets `shelf.items[0].count = 0` and recomputes the status, the
empty-forcing mutation of `ensureDemoDistribution` (`lib/mockData.ts`
lines 164-167). -/
def forceFirstItemEmpty (shelf : Shelf) : Shelf :=
  match shelf.items with
  | [] => shelf
  | p :: rest =>
      let items := { p with count := 0 } :: rest
      { shelf with items := items, status := determineShelfStatus items }

/-- Sets `shelf.items[0].count = Math.floor(threshold * 0.5)` and recomputes
the status, the low-forcing mutation of `ensureDemoDistribution`
(`lib/mockData.ts` lines 176-178). -/
def forceFirstItemLow (shelf : Shelf) : Shelf :=
  match shelf.items with
  | [] => shelf
  | p :: rest =>
      let items := { p with count := Int.fdiv p.threshold 2 } :: rest
      { shelf with items := items, status := determineShelfStatus items }

/-- One iteration of the empty-forcing loop of `ensureDemoDistribution`:
mutate `shelves[i]` only when it is not already empty and has items. -/
def forceEmptyStep (shelves : List Shelf) (i : Nat) : List Shelf :=
  match shelves[i]? with
  | none => shelves
  | some shelf =>
      if shelf.status != Status.empty && !shelf.items.isEmpty then
        shelves.set i (forceFirstItemEmpty shelf)
      else shelves

/-- One iteration of the low-forcing loop of `ensureDemoDistribution`:
mutate `shelves[i]` only when its status is `ok` and it has items. -/
def forceLowStep (shelves : List Shelf) (i : Nat) : List Shelf :=
  match shelves[i]? with
  | none => shelves
  | some shelf =>
      if shelf.status == Status.ok && !shelf.items.isEmpty then
        shelves.set i (forceFirstItemLow shelf)
      else shelves

/-- `ensureDemoDistribution` from `lib/mockData.ts` (lines 158-182),
functionally.  The empty-forcing loop visits indices `0, 1, ...` up to
`2 - emptyCount` (both loop bounds are fixed before the loop runs); the
low-forcing loop visits `Math.floor(Math.random() * shelves.length)` on
each iteration, and `picks` supplies those pre-drawn random indices. -/
def ensureDemoDistribution (picks : List Nat) (shelves : List Shelf) : List Shelf :=
  let emptyCount := (shelves.filter (fun s => s.status == Status.empty)).length
  let shelves1 :=
    if emptyCount < 2 then
      (List.range (min (2 - emptyCount) shelves.length)).foldl forceEmptyStep shelves
    else shelves
  let lowCount := (shelves1.filter (fun s => s.status == Status.low)).length
  if lowCount < 3 then
    (List.range (min (3 - lowCount) shelves1.length)).foldl
      (fun acc i => forceLowStep acc (picks.getD i 0)) shelves1
  else shelves1

/-! Concrete fixtures used by the closed theorems and witnesses below. -/

/-- An app state with the given shelves and alerts and idle bookkeeping
fields (the shape produced by `createInitialState`). -/
def baseState (shelves : List Shelf) (alerts : List Alert) : AppState :=
  { shelves := shelves
    alerts := alerts
    loading := { shelves := false, alerts := false }
    error := none
    selectedShelf := none
    filterOptions := { aisle := none, status := none } }

/-- A product that is out of stock. -/
def productSoap0 : Product := { product := "Dove Soap 100g", count := 0, threshold := 10 }

/-- A product that is in low stock. -/
def productSoap5 : Product := { product := "Dove Soap 100g", count := 5, threshold := 10 }

/-- Shelf `A1` holding the out-of-stock soap; its stored status is the
derived one. -/
def shelfSoap0 : Shelf :=
  { id := "A1", aisle := "Aisle A", items := [productSoap0], status := Status.empty, lastScanned := 0 }

/-- Shelf `A1` holding the low-stock soap; its stored status is the derived
one. -/
def shelfSoap5 : Shelf :=
  { id := "A1", aisle := "Aisle A", items := [productSoap5], status := Status.low, lastScanned := 0 }

/-- A consistent state holding only `shelfSoap0`. -/
def stC1 : AppState := baseState [shelfSoap0] []

/-- An acknowledged low alert for the (A1, Dove Soap 100g) pair. -/
def ackSoapAlert : Alert :=
  { id := "alert-A1-dove-soap-100g", shelf := "A1", product := "Dove Soap 100g",
    type := AlertType.low, timestamp := 0, acknowledged := true }

/-- A state holding `shelfSoap5` and the acknowledged alert for its soap. -/
def stC5 : AppState := baseState [shelfSoap5] [ackSoapAlert]

/-- A state with no shelves at all. -/
def stNoShelves : AppState := baseState [] []

/-- A shelf whose id `F9` does not occur in `stNoShelves`. -/
def shelfNew : Shelf :=
  { id := "F9", aisle := "Aisle F", items := [productSoap5], status := Status.low, lastScanned := 0 }

/-- A state holding `shelfSoap5`, target of reconciler updates. -/
def stC4 : AppState := baseState [shelfSoap5] []

/-- A scan update that empties the soap on shelf `A1`. -/
def updC4 : ScanUpdate := { shelf := "A1", items := [productSoap0], timestamp := 17 }

/-- A state holding `shelfSoap5`, target of an `UPDATE_SHELF` replacement. -/
def stC7 : AppState := baseState [shelfSoap5] []

/-- A replacement payload carrying the id `A1` already present in `stC7`. -/
def shelfA1v2 : Shelf :=
  { id := "A1", aisle := "Aisle A", items := [productSoap0], status := Status.empty, lastScanned := 5 }

/-! ## Claim theorems -/

/-- Claim C2: `determineShelfStatus` is a deterministic total function (it
is a Lean function) agreeing pointwise with the spec derivation: `empty` if
some product has `count == 0`, otherwise `low` if some product has
`0 < count < threshold`, otherwise `ok`. -/
theorem determineShelfStatus_eq_deriveStatusSpec (products : List Product) :
    determineShelfStatus products = deriveStatusSpec products := by
  have h1 : (0 < (products.filter (fun p => p.count == 0)).length) ↔
      ∃ p ∈ products, p.count = 0 := by
    rw [← List.countP_eq_length_filter, List.countP_pos_iff]
    simp
  have h2 : (0 < (products.filter
        (fun p => decide (0 < p.count) && decide (p.count < p.threshold))).length) ↔
      ∃ p ∈ products, 0 < p.count ∧ p.count < p.threshold := by
    rw [← List.countP_eq_length_filter, List.countP_pos_iff]
    simp
  simp only [determineShelfStatus, deriveStatusSpec]
  split_ifs <;> simp_all

/-- Claim C1 (code bug): the reducer's `MARK_RESTOCKED` transition
increments the product count without recomputing the shelf status, so the
resulting state violates `shelf.status == deriveStatus(shelf.items)`: from
the consistent state `stC1` (one shelf whose soap has count 0, status
`empty`), marking the soap restocked leaves status `empty` while the
derivation of the new items (count 1 < threshold 10) is `low`. -/
theorem markRestocked_breaks_status_derivation :
    ((appReducer 0 stC1 (AppAction.MARK_RESTOCKED "A1" "Dove Soap 100g")).shelves.map
      (fun s => (s.status, determineShelfStatus s.items))) = [(Status.empty, Status.low)] := by
  decide

/-- Claim C5, counterexample: `MARK_RESTOCKED` removes the *acknowledged*
matching alert as well — the filter drops every alert of the
(shelf, product) pair regardless of its `acknowledged` flag, so the
acknowledged alert of `stC5` does not survive, contradicting "removes the
matching unacknowledged alerts ... and leaves all other ... alerts
unchanged". -/
theorem markRestocked_removes_acknowledged_alerts :
    ackSoapAlert.acknowledged = true ∧
    ackSoapAlert ∈ stC5.alerts ∧
    (appReducer 0 stC5 (AppAction.MARK_RESTOCKED "A1" "Dove Soap 100g")).alerts = [] := by
  decide

/-- Claim C5, amended: `MARK_RESTOCKED` increments the named product's
count by exactly 1 on the named shelf, leaves every other shelf unchanged,
and removes exactly the alerts of that (shelf, product) pair — acknowledged
ones included — keeping all other alerts. -/
theorem markRestocked_behaviour (now : Int) (st : AppState) (shelfId productName : String) :
    (∀ a, a ∈ (appReducer now st (AppAction.MARK_RESTOCKED shelfId productName)).alerts ↔
        (a ∈ st.alerts ∧ ¬(a.shelf = shelfId ∧ a.product = productName))) ∧
    (∀ s ∈ st.shelves, s.id ≠ shelfId →
        s ∈ (appReducer now st (AppAction.MARK_RESTOCKED shelfId productName)).shelves) ∧
    (∀ s ∈ st.shelves, s.id = shelfId →
        { s with items := s.items.map (fun p =>
            if p.product == productName then { p with count := p.count + 1 } else p) }
          ∈ (appReducer now st (AppAction.MARK_RESTOCKED shelfId productName)).shelves) := by
  refine ⟨?alerts, ?other, ?target⟩
  case alerts =>
    intro a
    simp only [appReducer, List.mem_filter]
    simp
    tauto
  case other =>
    intro s hs hid
    simp only [appReducer]
    exact List.mem_map.mpr ⟨s, hs, by simp [hid]⟩
  case target =>
    intro s hs hid
    simp only [appReducer]
    exact List.mem_map.mpr ⟨s, hs, by simp [hid]⟩

/-- Witness for the amended C5 theorem at the concrete state `stC5`. -/
theorem markRestocked_behaviour_witness :
    { shelfSoap5 with items := shelfSoap5.items.map (fun p =>
        if p.product == "Dove Soap 100g" then { p with count := p.count + 1 } else p) }
      ∈ (appReducer 0 stC5 (AppAction.MARK_RESTOCKED "A1" "Dove Soap 100g")).shelves :=
  (markRestocked_behaviour 0 stC5 "A1" "Dove Soap 100g").2.2 shelfSoap5 (by decide) rfl

/-- Claim C7, counterexample: `UPDATE_SHELF` is not an upsert — dispatching
it on a state with no shelves leaves the shelf list empty instead of adding
the payload. -/
theorem updateShelf_does_not_insert :
    shelfNew ∉ (appReducer 0 stNoShelves (AppAction.UPDATE_SHELF shelfNew)).shelves := by
  decide

/-- Claim C7, amended: `UPDATE_SHELF` replaces in place: the shelf count
never changes, every existing shelf with the payload's id is replaced by
the payload, and shelves with other ids are kept; when no shelf has the
payload's id the list is unchanged (the payload is not added). -/
theorem updateShelf_replaces_in_place (now : Int) (st : AppState) (payload : Shelf) :
    ((appReducer now st (AppAction.UPDATE_SHELF payload)).shelves.length = st.shelves.length) ∧
    ((∃ s ∈ st.shelves, s.id = payload.id) →
        payload ∈ (appReducer now st (AppAction.UPDATE_SHELF payload)).shelves) ∧
    (∀ s ∈ st.shelves, s.id ≠ payload.id →
        s ∈ (appReducer now st (AppAction.UPDATE_SHELF payload)).shelves) := by
  refine ⟨?len, ?repl, ?keep⟩
  case len => simp [appReducer]
  case repl =>
    rintro ⟨s, hs, hid⟩
    simp only [appReducer]
    exact List.mem_map.mpr ⟨s, hs, by simp [hid]⟩
  case keep =>
    intro s hs hid
    simp only [appReducer]
    exact List.mem_map.mpr ⟨s, hs, by simp [hid]⟩

/-- Witness for the amended C7 theorem: replacing shelf `A1` of `stC7`. -/
theorem updateShelf_replaces_in_place_witness :
    shelfA1v2 ∈ (appReducer 0 stC7 (AppAction.UPDATE_SHELF shelfA1v2)).shelves :=
  (updateShelf_replaces_in_place 0 stC7 shelfA1v2).2.1 ⟨shelfSoap5, by decide, rfl⟩

/-- Claim C4, counterexample: the reconciler `handleUpdate`, given a scan
update for the existing shelf `A1` whose soap count is 0, transitions the
shelf to status `empty` but adds no alert at all — the state's alert list
stays empty, though the claim requires an `empty` alert for the pair. -/
theorem handleUpdate_adds_no_alerts_counterexample :
    (handleUpdate 0 stC4 updC4).alerts = [] ∧
    (updC4.items.filter (fun p => p.count == 0)).length = 1 ∧
    (handleUpdate 0 stC4 updC4).shelves.map Shelf.status = [Status.empty] := by
  decide

/-- Claim C4, amended: when the Update Reconciler processes a `ScanUpdate`,
it replaces the named shelf by `applyScanUpdate` of it but never modifies
the alert list — no alerts are added (and hence none duplicated) by
reconciliation. -/
theorem handleUpdate_leaves_alerts_unchanged (now : Int) (st : AppState) (upd : ScanUpdate) :
    ((handleUpdate now st upd).alerts = st.alerts) ∧
    (∀ s, st.shelves.find? (fun t => t.id == upd.shelf) = some s →
        applyScanUpdate s upd ∈ (handleUpdate now st upd).shelves) := by
  constructor
  · unfold handleUpdate
    cases hf : st.shelves.find? (fun t => t.id == upd.shelf) <;> rfl
  · intro s hf
    unfold handleUpdate
    rw [hf]
    simp only [appReducer]
    refine List.mem_map.mpr ⟨s, List.mem_of_find?_eq_some hf, ?he⟩
    simp [applyScanUpdate]

/-- Witness for the amended C4 theorem at the concrete state `stC4`. -/
theorem handleUpdate_leaves_alerts_unchanged_witness :
    applyScanUpdate shelfSoap5 updC4 ∈ (handleUpdate 0 stC4 updC4).shelves :=
  (handleUpdate_leaves_alerts_unchanged 0 stC4 updC4).2 shelfSoap5 (by decide)

/-- Each scan transition keeps a product count non-negative: the purchase
branch is clamped by `Math.max(0, ...)`, the restock branches add
non-negative floor terms to the (positive) threshold or the current
count. -/
theorem simulateProductScan_count_nonneg (c r : ℚ) (p : Product)
    (h0 : 0 ≤ p.count) (h1 : 0 < p.threshold) (hr : 0 ≤ r) :
    0 ≤ (simulateProductScan c r p).count := by
  simp only [simulateProductScan]
  split_ifs with hA hB hC
  · exact le_max_left 0 _
  · have hf : (0 : Int) ≤ ⌊r * 10⌋ := Int.floor_nonneg.mpr (mul_nonneg hr (by norm_num))
    show (0 : Int) ≤ p.threshold + ⌊r * 10⌋
    omega
  · have hf : (0 : Int) ≤ ⌊r * 8⌋ := Int.floor_nonneg.mpr (mul_nonneg hr (by norm_num))
    show (0 : Int) ≤ min (p.threshold + 5) (p.count + ⌊r * 8⌋)
    exact le_min (by omega) (by omega)
  · exact h0

/-- Count non-negativity lifted over the `items.map` traversal of
`simulateShelfScan`. -/
theorem simulateShelfScanItems_count_nonneg (rnd : Nat → ℚ × ℚ) (hrnd : ∀ i, 0 ≤ (rnd i).2) :
    ∀ (k : Nat) (items : List Product), (∀ p ∈ items, 0 ≤ p.count) →
      (∀ p ∈ items, 0 < p.threshold) →
      ∀ q ∈ simulateShelfScanItems rnd k items, 0 ≤ q.count := by
  intro k items
  induction items generalizing k with
  | nil =>
    intro _ _ q hq
    simp [simulateShelfScanItems] at hq
  | cons p rest ih =>
    intro h0 h1 q hq
    rw [simulateShelfScanItems] at hq
    rcases List.mem_cons.mp hq with h | h
    · subst h
      exact simulateProductScan_count_nonneg _ _ _ (h0 p (by simp)) (h1 p (by simp)) (hrnd k)
    · exact ih (k + 1) (fun x hx => h0 x (List.mem_cons_of_mem _ hx))
        (fun x hx => h1 x (List.mem_cons_of_mem _ hx)) q h

/-- Claim C8: for every shelf whose products have non-negative counts (and,
per the data model of the spec, positive thresholds) and for every outcome
of the random source, `applyScanUpdate(shelf, simulateShelfScan(shelf))`
has only non-negative counts and keeps the shelf id. -/
theorem applyScanUpdate_simulateShelfScan_roundtrip (rnd : Nat → ℚ × ℚ) (now : Int)
    (shelf : Shelf)
    (hcount : ∀ p ∈ shelf.items, 0 ≤ p.count)
    (hth : ∀ p ∈ shelf.items, 0 < p.threshold)
    (hrnd : ∀ i, 0 ≤ (rnd i).2) :
    (∀ p ∈ (applyScanUpdate shelf (simulateShelfScan rnd now shelf)).items, 0 ≤ p.count) ∧
    (applyScanUpdate shelf (simulateShelfScan rnd now shelf)).id = shelf.id := by
  refine ⟨?counts, rfl⟩
  intro p hp
  exact simulateShelfScanItems_count_nonneg rnd hrnd 0 shelf.items hcount hth p hp

/-- A fixed random source that always draws 0. -/
def wRnd : Nat → ℚ × ℚ := fun _ => (0, 0)

/-- A two-product shelf used as the round-trip witness input. -/
def wShelfScan : Shelf :=
  { id := "A1", aisle := "Aisle A",
    items := [{ product := "Dove Soap 100g", count := 5, threshold := 10 },
              { product := "Colgate Toothpaste", count := 0, threshold := 10 }],
    status := Status.empty, lastScanned := 0 }

/-- Witness for the C8 round-trip theorem at a concrete shelf and random
source. -/
theorem applyScanUpdate_simulateShelfScan_roundtrip_witness :
    (∀ p ∈ (applyScanUpdate wShelfScan (simulateShelfScan wRnd 7 wShelfScan)).items, 0 ≤ p.count) ∧
    (applyScanUpdate wShelfScan (simulateShelfScan wRnd 7 wShelfScan)).id = wShelfScan.id :=
  applyScanUpdate_simulateShelfScan_roundtrip wRnd 7 wShelfScan (by decide) (by decide)
    (fun _ => le_refl 0)

/-- Pointwise behaviour of the `items.map` traversal of
`simulateRestockProduct`: products with another name are returned
unchanged; the named product's new count is clamped non-negative, and an
explicit `newCount` argument becomes `max 0 newCount`. -/
theorem restockItems_spec (rnd : Nat → ℚ) (productName : String) (newCount : Option Int) :
    ∀ (k : Nat) (items : List Product),
      List.Forall₂ (fun p q =>
          (p.product ≠ productName → q = p) ∧
          (p.product = productName →
            0 ≤ q.count ∧ ∀ n, newCount = some n → q.count = max 0 n))
        items (restockItems rnd productName newCount k items) := by
  intro k items
  induction items generalizing k with
  | nil => exact List.Forall₂.nil
  | cons p rest ih =>
    refine List.Forall₂.cons ?hd (ih (k + 1))
    by_cases hp : p.product = productName
    · refine ⟨fun hne => absurd hp hne, fun _ => ?hm⟩
      rw [if_pos (by simp [hp])]
      refine ⟨le_max_left 0 _, fun n hn => ?hc⟩
      subst hn
      rfl
    · exact ⟨fun _ => by rw [if_neg (by simp [hp])], fun h => absurd h hp⟩

/-- When no product carries the requested name, the restock traversal is
the identity. -/
theorem restockItems_id_of_no_match (rnd : Nat → ℚ) (productName : String)
    (newCount : Option Int) :
    ∀ (k : Nat) (items : List Product), (∀ p ∈ items, p.product ≠ productName) →
      restockItems rnd productName newCount k items = items := by
  intro k items
  induction items generalizing k with
  | nil => intro _; rfl
  | cons p rest ih =>
    intro h
    rw [restockItems, if_neg (by simp [h p (by simp)]), ih (k + 1) (fun x hx => h x (List.mem_cons_of_mem _ hx))]

/-- Claim C10: `simulateRestockProduct` keeps every differently-named
product unchanged, gives the named product a non-negative count (an
explicit `newCount`, negative included, is clamped to `max 0 newCount`),
stores `determineShelfStatus` of the updated items as the new status, and
leaves the items untouched when no product matches the name. -/
theorem simulateRestockProduct_spec (rnd : Nat → ℚ) (now : Int) (shelf : Shelf)
    (productName : String) (newCount : Option Int) :
    List.Forall₂ (fun p q =>
        (p.product ≠ productName → q = p) ∧
        (p.product = productName →
          0 ≤ q.count ∧ ∀ n, newCount = some n → q.count = max 0 n))
      shelf.items (simulateRestockProduct rnd now shelf productName newCount).items ∧
    (simulateRestockProduct rnd now shelf productName newCount).status =
      determineShelfStatus (simulateRestockProduct rnd now shelf productName newCount).items ∧
    ((∀ p ∈ shelf.items, p.product ≠ productName) →
      (simulateRestockProduct rnd now shelf productName newCount).items = shelf.items) :=
  ⟨restockItems_spec rnd productName newCount 0 shelf.items, rfl,
    fun h => restockItems_id_of_no_match rnd productName newCount 0 shelf.items h⟩

/-- A one-product shelf used as the restock witness input. -/
def wShelfRestock : Shelf :=
  { id := "B1", aisle := "Aisle B",
    items := [{ product := "Kit Kat Bar", count := 2, threshold := 5 }],
    status := Status.low, lastScanned := 0 }

/-- Witness for the C10 theorem at a concrete shelf, with a negative
explicit `newCount`. -/
theorem simulateRestockProduct_spec_witness :
    (simulateRestockProduct (fun _ => 0) 3 wShelfRestock "Kit Kat Bar" (some (-5))).status =
      determineShelfStatus
        (simulateRestockProduct (fun _ => 0) 3 wShelfRestock "Kit Kat Bar" (some (-5))).items :=
  (simulateRestockProduct_spec (fun _ => 0) 3 wShelfRestock "Kit Kat Bar" (some (-5))).2.1

/-- An unacknowledged `empty` alert that is 1001 minutes old at time 0. -/
def alertOldEmpty : Alert :=
  { id := "e1", shelf := "A1", product := "Dove Soap 100g",
    type := AlertType.empty, timestamp := -60060000, acknowledged := false }

/-- An unacknowledged `low` alert raised at time 0. -/
def alertFreshLow : Alert :=
  { id := "l1", shelf := "B2", product := "Kit Kat Bar",
    type := AlertType.low, timestamp := 0, acknowledged := false }

/-- An unacknowledged `empty` alert raised at time 0. -/
def witEmpty : Alert :=
  { id := "we", shelf := "A1", product := "Dove Soap 100g",
    type := AlertType.empty, timestamp := 0, acknowledged := false }

/-- An unacknowledged `low` alert raised at time 0. -/
def witLow : Alert :=
  { id := "wl", shelf := "B2", product := "Kit Kat Bar",
    type := AlertType.low, timestamp := 0, acknowledged := false }

/-- Claim C3, counterexample: the age component of `getAlertPriority`
(`ageMinutes * 0.1`) can outgrow the 100-point gap between the `empty` and
`low` base scores.  At evaluation time 0, the unacknowledged `empty` alert
aged 1001 minutes scores 100.1 while the fresh unacknowledged `low` alert
scores 100, so the priority sort places the `low` alert before the `empty`
one — refuting the claimed ordering for arbitrary alert lists and
evaluation times. -/
theorem sortAlertsByPriority_counterexample :
    alertOldEmpty.acknowledged = false ∧ alertOldEmpty.type = AlertType.empty ∧
    alertFreshLow.acknowledged = false ∧ alertFreshLow.type = AlertType.low ∧
    sortAlertsByPriority 0 [alertOldEmpty, alertFreshLow] = [alertFreshLow, alertOldEmpty] := by
  refine ⟨rfl, rfl, rfl, rfl, ?hs⟩
  have pe : getAlertPriority 0 alertOldEmpty = 1001/10 := by
    simp [getAlertPriority, alertOldEmpty]
    norm_num
  have pl : getAlertPriority 0 alertFreshLow = 100 := by
    simp [getAlertPriority, alertFreshLow,
      show (AlertType.low == AlertType.empty) = false from rfl]
  simp only [sortAlertsByPriority, List.insertionSort, List.orderedInsert]
  rw [pe, pl]
  norm_num

/-- Priority bound: an unacknowledged `empty` alert younger than 1000
minutes scores strictly below 100. -/
theorem getAlertPriority_empty_unack_lt (now : Int) (a : Alert)
    (hty : a.type = AlertType.empty) (hack : a.acknowledged = false)
    (hts : now - 60000000 < a.timestamp) :
    getAlertPriority now a < 100 := by
  have h : ((now : Int) : ℚ) - ((a.timestamp : Int) : ℚ) < 60000000 := by
    exact_mod_cast (show (now - a.timestamp : Int) < 60000000 by omega)
  simp [getAlertPriority, hty, hack]
  linarith

/-- Priority bound: an unacknowledged `low` alert with a non-negative age
scores at least 100. -/
theorem getAlertPriority_low_unack_ge (now : Int) (a : Alert)
    (hty : a.type = AlertType.low) (hack : a.acknowledged = false)
    (hts : a.timestamp ≤ now) :
    100 ≤ getAlertPriority now a := by
  have h : (0 : ℚ) ≤ ((now : Int) : ℚ) - ((a.timestamp : Int) : ℚ) := by
    exact_mod_cast (show (0 : Int) ≤ now - a.timestamp by omega)
  simp [getAlertPriority, hty, hack,
    show (AlertType.low == AlertType.empty) = false from rfl]
  linarith

/-- Priority bound: an unacknowledged alert younger than 1000 minutes
scores strictly below 200. -/
theorem getAlertPriority_unack_lt (now : Int) (a : Alert)
    (hack : a.acknowledged = false) (hts : now - 60000000 < a.timestamp) :
    getAlertPriority now a < 200 := by
  have h : ((now : Int) : ℚ) - ((a.timestamp : Int) : ℚ) < 60000000 := by
    exact_mod_cast (show (now - a.timestamp : Int) < 60000000 by omega)
  simp [getAlertPriority, hack]
  split_ifs <;> linarith

/-- Priority bound: an acknowledged alert with a non-negative age scores at
least 10000. -/
theorem getAlertPriority_ack_ge (now : Int) (a : Alert)
    (hack : a.acknowledged = true) (hts : a.timestamp ≤ now) :
    10000 ≤ getAlertPriority now a := by
  have h : (0 : ℚ) ≤ ((now : Int) : ℚ) - ((a.timestamp : Int) : ℚ) := by
    exact_mod_cast (show (0 : Int) ≤ now - a.timestamp by omega)
  simp [getAlertPriority, hack]
  split_ifs <;> linarith

/-- In the output of the priority sort, an element with strictly smaller
priority sits at a strictly smaller position. -/
theorem sortAlertsByPriority_get_lt (now : Int) (alerts : List Alert)
    {i j : Nat} {x y : Alert}
    (hi : (sortAlertsByPriority now alerts)[i]? = some x)
    (hj : (sortAlertsByPriority now alerts)[j]? = some y)
    (hxy : getAlertPriority now x < getAlertPriority now y) : i < j := by
  have hpw : (sortAlertsByPriority now alerts).Pairwise
      (fun a b => getAlertPriority now a ≤ getAlertPriority now b) := by
    haveI : IsTotal Alert (fun a b => getAlertPriority now a ≤ getAlertPriority now b) :=
      ⟨fun a b => le_total _ _⟩
    haveI : IsTrans Alert (fun a b => getAlertPriority now a ≤ getAlertPriority now b) :=
      ⟨fun a b c => le_trans⟩
    exact List.sorted_insertionSort _ alerts
  rcases List.getElem?_eq_some.mp hi with ⟨hil, hix⟩
  rcases List.getElem?_eq_some.mp hj with ⟨hjl, hjy⟩
  by_contra hij
  push_neg at hij
  rcases Nat.eq_or_lt_of_le hij with heq | hlt
  · subst heq
    rw [hix] at hjy
    subst hjy
    exact absurd hxy (lt_irrefl _)
  · have hp := List.pairwise_iff_get.mp hpw ⟨j, hjl⟩ ⟨i, hil⟩ hlt
    rw [List.get_eq_getElem, List.get_eq_getElem, hix, hjy] at hp
    exact absurd hxy (not_lt.mpr hp)

/-- Claim C3, amended: restricted to alert lists whose members all carry a
timestamp within the 1000 minutes (60000000 ms) preceding the evaluation
time — so that the `ageMinutes * 0.1` component cannot bridge the base
score gaps — `sortAlertsByPriority` places every unacknowledged `empty`
alert before every unacknowledged `low` alert, and every unacknowledged
alert before every acknowledged one. -/
theorem sortAlertsByPriority_class_ordering (now : Int) (alerts : List Alert)
    (hwin : ∀ a ∈ alerts, now - 60000000 < a.timestamp ∧ a.timestamp ≤ now) :
    ∀ (i j : Nat) (x y : Alert),
      (sortAlertsByPriority now alerts)[i]? = some x →
      (sortAlertsByPriority now alerts)[j]? = some y →
      ((x.acknowledged = false ∧ x.type = AlertType.empty ∧
        y.acknowledged = false ∧ y.type = AlertType.low) ∨
       (x.acknowledged = false ∧ y.acknowledged = true)) →
      i < j := by
  intro i j x y hi hj hcase
  rcases List.getElem?_eq_some.mp hi with ⟨hil, hix⟩
  rcases List.getElem?_eq_some.mp hj with ⟨hjl, hjy⟩
  have hmx : x ∈ alerts :=
    (List.perm_insertionSort _ alerts).subset (hix ▸ List.getElem_mem hil)
  have hmy : y ∈ alerts :=
    (List.perm_insertionSort _ alerts).subset (hjy ▸ List.getElem_mem hjl)
  have hwx := hwin x hmx
  have hwy := hwin y hmy
  refine sortAlertsByPriority_get_lt now alerts hi hj ?hlt
  rcases hcase with ⟨hxa, hxt, hya, hyt⟩ | ⟨hxa, hya⟩
  · exact lt_of_lt_of_le (getAlertPriority_empty_unack_lt now x hxt hxa hwx.1)
      (getAlertPriority_low_unack_ge now y hyt hya hwy.2)
  · have h1 : getAlertPriority now x < 10000 :=
      lt_trans (getAlertPriority_unack_lt now x hxa hwx.1) (by norm_num)
    exact lt_of_lt_of_le h1 (getAlertPriority_ack_ge now y hya hwy.2)

/-- Witness for the amended C3 theorem: at time 0, sorting a fresh `low`
and a fresh `empty` alert puts the `empty` one first. -/
theorem sortAlertsByPriority_class_ordering_witness : (0 : Nat) < 1 := by
  have pe : getAlertPriority 0 witEmpty = 0 := by
    simp [getAlertPriority, witEmpty]
  have pl : getAlertPriority 0 witLow = 100 := by
    simp [getAlertPriority, witLow,
      show (AlertType.low == AlertType.empty) = false from rfl]
  have hl : sortAlertsByPriority 0 [witLow, witEmpty] = [witEmpty, witLow] := by
    simp only [sortAlertsByPriority, List.insertionSort, List.orderedInsert]
    rw [pe, pl]
    norm_num
  exact sortAlertsByPriority_class_ordering 0 [witLow, witEmpty]
    (by decide) 0 1 witEmpty witLow (by rw [hl]; rfl) (by rw [hl]; rfl)
    (Or.inl ⟨rfl, rfl, rfl, rfl⟩)

/-- The type filter step only removes elements. -/
theorem typeStage_subset (o : AlertFilterOptions) {xs : List Alert} {a : Alert}
    (h : a ∈ typeStage o xs) : a ∈ xs := by
  rcases ht : o.type with _ | t
  · simpa [typeStage, ht] using h
  · cases t with
    | all => simpa [typeStage, ht] using h
    | empty =>
      simp only [typeStage, ht, filterAlertsByType] at h
      exact List.mem_of_mem_filter h
    | low =>
      simp only [typeStage, ht, filterAlertsByType] at h
      exact List.mem_of_mem_filter h

/-- A list whose members all pass the type filter is fixed by it. -/
theorem typeStage_fix (o : AlertFilterOptions) {xs ys : List Alert}
    (h : ∀ a ∈ ys, a ∈ typeStage o xs) : typeStage o ys = ys := by
  rcases ht : o.type with _ | t
  · simp [typeStage, ht]
  · cases t with
    | all => simp [typeStage, ht]
    | empty =>
      simp only [typeStage, ht, filterAlertsByType] at h ⊢
      exact List.filter_eq_self.mpr (fun a ha => (List.mem_filter.mp (h a ha)).2)
    | low =>
      simp only [typeStage, ht, filterAlertsByType] at h ⊢
      exact List.filter_eq_self.mpr (fun a ha => (List.mem_filter.mp (h a ha)).2)

/-- The acknowledgment filter step only removes elements. -/
theorem statusStage_subset (o : AlertFilterOptions) {xs : List Alert} {a : Alert}
    (h : a ∈ statusStage o xs) : a ∈ xs := by
  rcases ht : o.status with _ | t
  · simpa [statusStage, ht] using h
  · cases t with
    | all => simpa [statusStage, ht] using h
    | acknowledged =>
      simp only [statusStage, ht, filterAlertsByStatus] at h
      exact List.mem_of_mem_filter h
    | unacknowledged =>
      simp only [statusStage, ht, filterAlertsByStatus] at h
      exact List.mem_of_mem_filter h

/-- A list whose members all pass the acknowledgment filter is fixed by it. -/
theorem statusStage_fix (o : AlertFilterOptions) {xs ys : List Alert}
    (h : ∀ a ∈ ys, a ∈ statusStage o xs) : statusStage o ys = ys := by
  rcases ht : o.status with _ | t
  · simp [statusStage, ht]
  · cases t with
    | all => simp [statusStage, ht]
    | acknowledged =>
      simp only [statusStage, ht, filterAlertsByStatus] at h ⊢
      exact List.filter_eq_self.mpr (fun a ha => (List.mem_filter.mp (h a ha)).2)
    | unacknowledged =>
      simp only [statusStage, ht, filterAlertsByStatus] at h ⊢
      exact List.filter_eq_self.mpr (fun a ha => (List.mem_filter.mp (h a ha)).2)

/-- The date-range filter step only removes elements. -/
theorem dateStage_subset (clk : Clock) (o : AlertFilterOptions) {xs : List Alert} {a : Alert}
    (h : a ∈ dateStage clk o xs) : a ∈ xs := by
  rcases ht : o.dateRange with _ | t
  · simpa [dateStage, ht] using h
  · cases t with
    | all => simpa [dateStage, ht] using h
    | today =>
      simp only [dateStage, ht, filterAlertsByDateRange] at h
      exact List.mem_of_mem_filter h
    | week =>
      simp only [dateStage, ht, filterAlertsByDateRange] at h
      exact List.mem_of_mem_filter h
    | month =>
      simp only [dateStage, ht, filterAlertsByDateRange] at h
      exact List.mem_of_mem_filter h

/-- A list whose members all pass the date-range filter is fixed by it. -/
theorem dateStage_fix (clk : Clock) (o : AlertFilterOptions) {xs ys : List Alert}
    (h : ∀ a ∈ ys, a ∈ dateStage clk o xs) : dateStage clk o ys = ys := by
  rcases ht : o.dateRange with _ | t
  · simp [dateStage, ht]
  · cases t with
    | all => simp [dateStage, ht]
    | today =>
      simp only [dateStage, ht, filterAlertsByDateRange] at h ⊢
      exact List.filter_eq_self.mpr (fun a ha => (List.mem_filter.mp (h a ha)).2)
    | week =>
      simp only [dateStage, ht, filterAlertsByDateRange] at h ⊢
      exact List.filter_eq_self.mpr (fun a ha => (List.mem_filter.mp (h a ha)).2)
    | month =>
      simp only [dateStage, ht, filterAlertsByDateRange] at h ⊢
      exact List.filter_eq_self.mpr (fun a ha => (List.mem_filter.mp (h a ha)).2)

/-- The search filter step only removes elements. -/
theorem searchStage_subset (o : AlertFilterOptions) {xs : List Alert} {a : Alert}
    (h : a ∈ searchStage o xs) : a ∈ xs := by
  rcases ht : o.search with _ | s
  · simpa [searchStage, ht] using h
  · simp only [searchStage, ht] at h
    by_cases h0 : (s == "") = true
    · simpa [h0] using h
    · simp only [h0, if_false] at h
      simp only [filterAlertsBySearch] at h
      by_cases h1 : (s.trim == "") = true
      · simpa [h1] using h
      · simp only [h1, if_false] at h
        exact List.mem_of_mem_filter h

/-- A list whose members all pass the search filter is fixed by it. -/
theorem searchStage_fix (o : AlertFilterOptions) {xs ys : List Alert}
    (h : ∀ a ∈ ys, a ∈ searchStage o xs) : searchStage o ys = ys := by
  rcases ht : o.search with _ | s
  · simp [searchStage, ht]
  · simp only [searchStage, ht] at h ⊢
    by_cases h0 : (s == "") = true
    · simp [h0]
    · simp only [h0, if_false] at h ⊢
      simp only [filterAlertsBySearch] at h ⊢
      by_cases h1 : (s.trim == "") = true
      · simp [h1]
      · simp only [h1, if_false] at h ⊢
        exact List.filter_eq_self.mpr (fun a ha => (List.mem_filter.mp (h a ha)).2)

/-- The severity filter step only removes elements. -/
theorem severityStage_subset (clk : Clock) (o : AlertFilterOptions) {xs : List Alert} {a : Alert}
    (h : a ∈ severityStage clk o xs) : a ∈ xs := by
  rcases ht : o.severity with _ | t
  · simpa [severityStage, ht] using h
  · cases t with
    | all => simpa [severityStage, ht] using h
    | sel ss =>
      simp only [severityStage, ht, filterAlertsBySeverity] at h
      exact List.mem_of_mem_filter h

/-- A list whose members all pass the severity filter is fixed by it. -/
theorem severityStage_fix (clk : Clock) (o : AlertFilterOptions) {xs ys : List Alert}
    (h : ∀ a ∈ ys, a ∈ severityStage clk o xs) : severityStage clk o ys = ys := by
  rcases ht : o.severity with _ | t
  · simp [severityStage, ht]
  · cases t with
    | all => simp [severityStage, ht]
    | sel ss =>
      simp only [severityStage, ht, filterAlertsBySeverity] at h ⊢
      exact List.filter_eq_self.mpr (fun a ha => (List.mem_filter.mp (h a ha)).2)

/-- The filter block of `processAlerts` only removes elements. -/
theorem applyFilters_subset (clk : Clock) (o : AlertFilterOptions) {xs : List Alert} {a : Alert}
    (h : a ∈ applyFilters clk o xs) : a ∈ xs := by
  have h1 : a ∈ severityStage clk o
      (searchStage o (dateStage clk o (statusStage o (typeStage o xs)))) := h
  exact typeStage_subset o (statusStage_subset o (dateStage_subset clk o
    (searchStage_subset o (severityStage_subset clk o h1))))

/-- A list whose members all survived the filter block (over any base list)
is fixed by a second application of the filter block. -/
theorem applyFilters_fix (clk : Clock) (o : AlertFilterOptions) {xs ys : List Alert}
    (h : ∀ a ∈ ys, a ∈ applyFilters clk o xs) : applyFilters clk o ys = ys := by
  have h5 : ∀ a ∈ ys, a ∈ severityStage clk o
      (searchStage o (dateStage clk o (statusStage o (typeStage o xs)))) := h
  have hty : ∀ a ∈ ys, a ∈ typeStage o xs := fun a ha =>
    statusStage_subset o (dateStage_subset clk o (searchStage_subset o
      (severityStage_subset clk o (h5 a ha))))
  have hst : ∀ a ∈ ys, a ∈ statusStage o (typeStage o xs) := fun a ha =>
    dateStage_subset clk o (searchStage_subset o (severityStage_subset clk o (h5 a ha)))
  have hdt : ∀ a ∈ ys, a ∈ dateStage clk o (statusStage o (typeStage o xs)) := fun a ha =>
    searchStage_subset o (severityStage_subset clk o (h5 a ha))
  have hse : ∀ a ∈ ys, a ∈ searchStage o (dateStage clk o (statusStage o (typeStage o xs))) :=
    fun a ha => severityStage_subset clk o (h5 a ha)
  show severityStage clk o (searchStage o (dateStage clk o (statusStage o (typeStage o ys)))) = ys
  rw [typeStage_fix o hty, statusStage_fix o hst, dateStage_fix clk o hdt,
    searchStage_fix o hse, severityStage_fix clk o h5]

/-- Sorting by priority twice with the same clock equals sorting once. -/
theorem sortAlertsByPriority_idem (now : Int) (xs : List Alert) :
    sortAlertsByPriority now (sortAlertsByPriority now xs) = sortAlertsByPriority now xs := by
  haveI : IsTotal Alert (fun a b => getAlertPriority now a ≤ getAlertPriority now b) :=
    ⟨fun a b => le_total _ _⟩
  haveI : IsTrans Alert (fun a b => getAlertPriority now a ≤ getAlertPriority now b) :=
    ⟨fun a b c => le_trans⟩
  exact List.Sorted.insertionSort_eq (List.sorted_insertionSort _ xs)

/-- Sorting by time twice equals sorting once. -/
theorem sortAlertsByTime_idem (xs : List Alert) :
    sortAlertsByTime (sortAlertsByTime xs) = sortAlertsByTime xs := by
  haveI : IsTotal Alert (fun a b => b.timestamp ≤ a.timestamp) :=
    ⟨fun a b => le_total b.timestamp a.timestamp⟩
  haveI : IsTrans Alert (fun a b => b.timestamp ≤ a.timestamp) :=
    ⟨fun a b c hab hbc => le_trans hbc hab⟩
  exact List.Sorted.insertionSort_eq (List.sorted_insertionSort _ xs)

/-- Sorting by shelf id twice equals sorting once. -/
theorem sortAlertsByLocation_idem (xs : List Alert) :
    sortAlertsByLocation (sortAlertsByLocation xs) = sortAlertsByLocation xs := by
  haveI : IsTotal Alert (fun a b => a.shelf ≤ b.shelf) := ⟨fun a b => le_total _ _⟩
  haveI : IsTrans Alert (fun a b => a.shelf ≤ b.shelf) := ⟨fun a b c => le_trans⟩
  exact List.Sorted.insertionSort_eq (List.sorted_insertionSort _ xs)

/-- Sorting by product name twice equals sorting once. -/
theorem sortAlertsByProduct_idem (xs : List Alert) :
    sortAlertsByProduct (sortAlertsByProduct xs) = sortAlertsByProduct xs := by
  haveI : IsTotal Alert (fun a b => a.product ≤ b.product) := ⟨fun a b => le_total _ _⟩
  haveI : IsTrans Alert (fun a b => a.product ≤ b.product) := ⟨fun a b c => le_trans⟩
  exact List.Sorted.insertionSort_eq (List.sorted_insertionSort _ xs)

/-- Every branch of the sort switch permutes its input. -/
theorem applySort_perm (clk : Clock) (o : AlertFilterOptions) (xs : List Alert) :
    List.Perm (applySort clk o xs) xs := by
  unfold applySort
  split <;> exact List.perm_insertionSort _ xs

/-- The sort switch is idempotent. -/
theorem applySort_idem (clk : Clock) (o : AlertFilterOptions) (xs : List Alert) :
    applySort clk o (applySort clk o xs) = applySort clk o xs := by
  rcases hs : o.sortBy with _ | t
  · simp only [applySort, hs]
    exact sortAlertsByPriority_idem _ _
  · cases t with
    | priority =>
      simp only [applySort, hs]
      exact sortAlertsByPriority_idem _ _
    | time =>
      simp only [applySort, hs]
      exact sortAlertsByTime_idem _
    | location =>
      simp only [applySort, hs]
      exact sortAlertsByLocation_idem _
    | product =>
      simp only [applySort, hs]
      exact sortAlertsByProduct_idem _

/-- Claim C9: `processAlerts` is idempotent — re-applying it with the same
options and the same clock returns the same list (literally, hence also in
content): the filters fix a list that already passed them, and the stable
sort fixes a sorted list. -/
theorem processAlerts_idem (clk : Clock) (xs : List Alert) (o : AlertFilterOptions) :
    processAlerts clk (processAlerts clk xs o) o = processAlerts clk xs o := by
  show applySort clk o (applyFilters clk o (applySort clk o (applyFilters clk o xs))) =
    applySort clk o (applyFilters clk o xs)
  rw [applyFilters_fix clk o (fun a ha =>
    ((applySort_perm clk o (applyFilters clk o xs)).mem_iff).mp ha)]
  exact applySort_idem clk o (applyFilters clk o xs)

/-- Items of a well-stocked shelf: every count at or above its threshold
(each count lies in the 60 percent `threshold + [0,10)` band of
`generateRealisticCount`). -/
def okItems : List Product :=
  [{ product := "Coca-Cola 12-pack", count := 25, threshold := 20 },
   { product := "Tide Detergent", count := 20, threshold := 15 },
   { product := "Phone Charger", count := 12, threshold := 10 }]

/-- Items whose first product is out of stock (the 10 percent `count = 0`
band of `generateRealisticCount`) while the rest are stocked. -/
def demoEmptyItems : List Product :=
  [{ product := "Dove Soap 100g", count := 0, threshold := 10 },
   { product := "Colgate Toothpaste", count := 12, threshold := 10 },
   { product := "Nivea Lotion", count := 11, threshold := 10 }]

/-- A generated-looking shelf: its stored status is the derived one, as
`generateShelf` guarantees. -/
def mkDemoShelf (id aisle : String) (items : List Product) : Shelf :=
  { id := id, aisle := aisle, items := items,
    status := determineShelfStatus items, lastScanned := 0 }

/-- A 15-shelf grid as built by `generateMockShelves` (aisles A-E, shelves
1-3) in a random outcome where `A1` came out empty and all other shelves
came out `ok` — every per-product count is inside the support of
`generateRealisticCount`, so this table is reachable by the generator. -/
def demoShelves : List Shelf :=
  [mkDemoShelf "A1" "Aisle A" demoEmptyItems,
   mkDemoShelf "A2" "Aisle A" okItems,
   mkDemoShelf "A3" "Aisle A" okItems,
   mkDemoShelf "B1" "Aisle B" okItems,
   mkDemoShelf "B2" "Aisle B" okItems,
   mkDemoShelf "B3" "Aisle B" okItems,
   mkDemoShelf "C1" "Aisle C" okItems,
   mkDemoShelf "C2" "Aisle C" okItems,
   mkDemoShelf "C3" "Aisle C" okItems,
   mkDemoShelf "D1" "Aisle D" okItems,
   mkDemoShelf "D2" "Aisle D" okItems,
   mkDemoShelf "D3" "Aisle D" okItems,
   mkDemoShelf "E1" "Aisle E" okItems,
   mkDemoShelf "E2" "Aisle E" okItems,
   mkDemoShelf "E3" "Aisle E" okItems]

/-- Claim C6 (code bug): the distribution-forcing pass does not deliver
its own "Force at least 2 empty shelves" guarantee.  With one shelf
already empty, the forcing loop runs for a single index `i = 0`, but
`shelves[0]` is exactly the shelf that is already empty, so the guard
`shelf.status !== 'empty'` skips it and nothing is forced: the final grid
still has 15 shelves but only 1 empty one, although the claim promises at
least 2 (whatever indices the low-forcing pass draws — here 1, 2, 3). -/
theorem ensureDemoDistribution_misses_empty_quota :
    demoShelves.length = 15 ∧
    (ensureDemoDistribution [1, 2, 3] demoShelves).length = 15 ∧
    ((ensureDemoDistribution [1, 2, 3] demoShelves).filter
        (fun s => s.status == Status.empty)).length = 1 := by
  decide

end ShelfScan
